import Mathlib

/-!
# Verification of the solguard-web front end

A shallow embedding of the client-side scan pipeline of the solguard web
front end: the address validator, the timed fetch wrapper, the health-check
gate, the response classifier of `scanToken` (src/script.js), the result
renderer of `results.js`, the URL-payload variant (src/unnamed/part_001) and
its numeric formatters.  JavaScript values are modelled by the inductive
`Json`; stateful DOM/network effects are modelled as explicit action traces.
-/

set_option maxRecDepth 4096

/-- A JavaScript number, modelled as the exact decimal
`mant / 10 ^ exp`.  Every numeral the program manipulates is a decimal
that this represents exactly. -/
structure JsNum where
  mant : Int
  exp : Nat
deriving DecidableEq, Repr

/-- The decimal `m` (an integer). -/
def jnum (m : Int) : JsNum := ⟨m, 0⟩

/-- `10 ^ e` as an integer. -/
def pow10 (e : Nat) : Int := (10 : Int) ^ e

/-- Whether the number equals zero. -/
def JsNum.isZero (n : JsNum) : Bool := n.mant == 0

/-- Comparison `n ≥ k` against an integer bound (the denominator
`10 ^ exp` is positive). -/
def JsNum.geInt (n : JsNum) (k : Int) : Bool := k * pow10 n.exp ≤ n.mant

/-- Truncation toward zero (`Int./` is T-division), as `parseInt` applied
to the number's decimal rendering. -/
def JsNum.trunc (n : JsNum) : Int := n.mant / pow10 n.exp

/-- `Math.round`: half toward positive infinity, i.e. `⌊x + 1/2⌋`,
computed as `⌊(2·mant + 10^exp) / (2·10^exp)⌋` with floor division. -/
def JsNum.roundHalfUp (n : JsNum) : Int :=
  Int.fdiv (2 * n.mant + pow10 n.exp) (2 * pow10 n.exp)

/-- Rounding half away from zero after scaling by `10 ^ d` (`halfExpand`,
the default rounding of `Intl.NumberFormat` backing `toLocaleString`). -/
def JsNum.scaledRoundHalfExpand (n : JsNum) (d : Nat) : Int :=
  let a := n.mant * pow10 d
  let b := pow10 n.exp
  if 0 ≤ a then (2 * a + b) / (2 * b) else -((2 * (-a) + b) / (2 * b))

/-- Strip trailing zero decimals (fuelled by the exponent, so the
recursion is structural). -/
def JsNum.normFuel : Nat → Int → Nat → Int × Nat
  | 0, m, e => (m, e)
  | fuel + 1, m, e =>
    if e == 0 then (m, e)
    else if m % 10 == 0 then JsNum.normFuel fuel (m / 10) (e - 1)
    else (m, e)

/-- The JavaScript string rendering of a number: the shortest decimal,
e.g. `5`, `-3.25`. -/
def JsNum.render (n : JsNum) : String :=
  let (m, e) := JsNum.normFuel n.exp n.mant n.exp
  if e == 0 then toString m
  else
    let sign := if m < 0 then "-" else ""
    let a := m.natAbs
    let ip := a / 10 ^ e
    let fpDigits := (toString (a % 10 ^ e)).data
    let fp : String := ⟨List.replicate (e - fpDigits.length) '0' ++ fpDigits⟩
    sign ++ toString ip ++ "." ++ fp

/-- Model of a JavaScript/JSON value. -/
inductive Json where
  | null
  | bool (b : Bool)
  | num (n : JsNum)
  | str (s : String)
  | arr (elems : List Json)
  | obj (fields : List (String × Json))

/-- JavaScript truthiness of a defined value. -/
def jsTruthy : Json → Bool
  | .null => false
  | .bool b => b
  | .num n => !n.isZero
  | .str s => !s.data.isEmpty
  | .arr _ => true
  | .obj _ => true

/-- JavaScript truthiness where `none` stands for `undefined`. -/
def jsTruthyO (o : Option Json) : Bool :=
  match o with
  | none => false
  | some j => jsTruthy j

/-- `typeof` on a defined value (`typeof null` is `"object"` in JavaScript). -/
def jsTypeof : Json → String
  | .null => "object"
  | .bool _ => "boolean"
  | .num _ => "number"
  | .str _ => "string"
  | .arr _ => "object"
  | .obj _ => "object"

/-- String rendering of a value, as the JavaScript string coercion used by
template literals and `new Error(message)`.  Objects stringify to
`[object Object]`, arrays to their comma-joined elements. -/
def jsToString : Json → String
  | .null => "null"
  | .bool b => if b then "true" else "false"
  | .num n => n.render
  | .str s => s
  | .arr l => String.intercalate "," (l.map fun e =>
      match e with
      | .null => ""
      | e' => jsToStringShallow e')
  | .obj _ => "[object Object]"
where
  /-- One-level string coercion for array elements (nested arrays flatten in
  JavaScript; one level suffices for the program's values). -/
  jsToStringShallow : Json → String
  | .null => "null"
  | .bool b => if b then "true" else "false"
  | .num n => n.render
  | .str s => s
  | .arr _ => ""
  | .obj _ => "[object Object]"

/-- Property read `j[k]`: defined (`some`) only on objects holding the key,
`undefined` (`none`) otherwise.  Duplicate keys are not modelled. -/
def jsGet (j : Json) (k : String) : Option Json :=
  match j with
  | .obj fields => fields.lookup k
  | _ => none

/-- Property read `o[k]` where the receiver may be `undefined`/`null`, in
which case JavaScript throws a `TypeError`; modelled as `Except`. -/
def jsProp (o : Option Json) (k : String) : Except Unit (Option Json) :=
  match o with
  | none => .error ()
  | some .null => .error ()
  | some j => .ok (jsGet j k)

/-- `l.takeWhile Char.isDigit` folded to a numeral, `none` when no digit. -/
def digitsVal (l : List Char) : Option Nat :=
  let ds := l.takeWhile Char.isDigit
  if ds.isEmpty then none
  else some (ds.foldl (fun a c => a * 10 + (c.toNat - 48)) 0)

/-- Model of `parseInt` on a string: skip leading spaces, read an optional
sign and the leading digit run; `none` stands for `NaN`. -/
def parseIntStr (s : String) : Option Int :=
  let chars := s.data.dropWhile (fun c => c == ' ')
  match chars with
  | '-' :: rest => (digitsVal rest).map (fun n => -(n : Int))
  | '+' :: rest => (digitsVal rest).map (fun n => (n : Int))
  | _ => (digitsVal chars).map (fun n => (n : Int))

/-- Model of `parseInt(v)` on a value (the argument is coerced to a string
first; on a number this truncates toward zero).  `none` stands for `NaN`. -/
def jsParseInt : Json → Option Int
  | .num n => some n.trunc
  | .str s => parseIntStr s
  | _ => none

/-- The regex character class `[1-9A-HJ-NP-Za-km-z]` of
`isValidSolanaAddress` (Base58: digits without 0, uppercase without I and O,
lowercase without l), by code point. -/
def isBase58Char (c : Char) : Bool :=
  let n := c.toNat
  (49 ≤ n && n ≤ 57) ||      -- '1'-'9'
  (65 ≤ n && n ≤ 72) ||      -- 'A'-'H'
  (74 ≤ n && n ≤ 78) ||      -- 'J'-'N'
  (80 ≤ n && n ≤ 90) ||      -- 'P'-'Z'
  (97 ≤ n && n ≤ 107) ||     -- 'a'-'k'
  (109 ≤ n && n ≤ 122)       -- 'm'-'z'

/-- `isValidSolanaAddress` (src/script.js lines 41-45): falsy check, length
bounds, then the anchored match of `^[1-9A-HJ-NP-Za-km-z]{32,44}$`, which
holds exactly when every character is in the class and the length is within
[32, 44].  JavaScript string length is modelled on the character list (the
two lengths agree on the Base58 range, and any input where they differ has a
character outside the class and is rejected either way). -/
def isValidSolanaAddress (address : String) : Bool :=
  if address.data.isEmpty then false
  else if address.data.length < 32 || 44 < address.data.length then false
  else address.data.all isBase58Char &&
    decide (32 ≤ address.data.length) && decide (address.data.length ≤ 44)

/-- Whether `pat` is an initial segment of `l`. -/
def startsWithChars : List Char → List Char → Bool
  | _, [] => true
  | [], _ :: _ => false
  | c :: cs, p :: ps => c == p && startsWithChars cs ps

/-- Whether `pat` occurs contiguously in `l`. -/
def occursIn : List Char → List Char → Bool
  | [], pat => pat.isEmpty
  | c :: rest, pat => startsWithChars (c :: rest) pat || occursIn rest pat

/-- Model of `String.prototype.includes`. -/
def strIncludes (s needle : String) : Bool :=
  occursIn s.data needle.data

/-- `contentType && contentType.includes('application/json')`, with `none`
for a missing header (`response.headers.get` returned `null`). -/
def ctHasJson : Option String → Bool
  | none => false
  | some s => strIncludes s "application/json"

/-- `API_BASE_URL`: the localhost deployment constant (src/unnamed/part_000
line 9; src/script.js computes the same value when served from localhost). -/
def API_BASE_URL : String := "http://localhost:8000"

/-- `API_TIMEOUT` (30 seconds, in milliseconds). -/
def API_TIMEOUT : Nat := 30000

/-- An HTTP response as the classifier observes it: `ok` status flag, the
`content-type` header, and the result of `response.json()` (`none` when the
body is not valid JSON, in which case `json()` rejects). -/
structure HttpResponse where
  ok : Bool
  contentType : Option String
  json : Option Json

/-- How an awaited `fetch` settles: with a response, or by rejecting with an
error carrying a name and a message (e.g. `TypeError`/`Failed to fetch` for
a transport failure, `AbortError` when the abort signal fired). -/
inductive FetchOutcome where
  | response (r : HttpResponse)
  | failure (name msg : String)

/-- The network's behaviour for one request: how it would settle and after
how many milliseconds. -/
structure Pending where
  time : Nat
  outcome : FetchOutcome

/-- Result of `fetchWithTimeout`: whether the abort timer fired and how the
awaited promise settled. -/
structure FetchSim where
  aborted : Bool
  result : FetchOutcome

/-- `options.timeout || API_TIMEOUT`: a missing or zero (falsy) timeout
falls back to the 30-second default. -/
def effTimeout : Option Nat → Nat
  | none => API_TIMEOUT
  | some 0 => API_TIMEOUT
  | some t => t

/-- `fetchWithTimeout` (src/script.js lines 47-68): a timer set to the
effective timeout aborts the controller; if the request has not settled
strictly before the deadline the fetch rejects with an `AbortError`,
otherwise the timer is cleared and the request's own outcome is returned. -/
def fetchWithTimeout (timeoutOpt : Option Nat) (p : Pending) : FetchSim :=
  let t := effTimeout timeoutOpt
  if t ≤ p.time then ⟨true, .failure "AbortError" "signal is aborted without reason"⟩
  else ⟨false, p.outcome⟩

/-- `checkServiceHealth` (src/script.js lines 70-80): a 5-second probe of
`/health`; returns `response.ok`, and `false` on any rejection (timeout or
transport failure alike — the catch swallows the error). -/
def checkServiceHealth (p : Pending) : Bool :=
  match (fetchWithTimeout (some 5000) p).result with
  | .response r => r.ok
  | .failure _ _ => false

/-- `errorData.detail || errorMessage` for a parsed non-null error body:
the `detail` field when present and truthy, coerced to a string, else the
generic message. -/
def detailMessage (j : Json) : String :=
  match jsGet j "detail" with
  | some d => if jsTruthy d then jsToString d else "Failed to analyze token"
  | none => "Failed to analyze token"

/-- The response-classification block of `scanToken` (src/script.js lines
113-147), producing either the parsed data or the thrown error's
(name, message): non-ok status first (JSON content type reads `detail`,
otherwise the generic message with the unexpected-response detail, without
parsing the body), then the content-type check on a success status, then
`response.json()`, then the structured-record check
(`!data || typeof data !== 'object'`). -/
def analyzeClassify (resp : HttpResponse) : Except (String × String) Json :=
  if !resp.ok then
    if ctHasJson resp.contentType then
      match resp.json with
      | none => .error ("SyntaxError", "Unexpected token in JSON")
      | some .null => .error ("TypeError", "Cannot read properties of null (reading 'detail')")
      | some j => .error ("Error", detailMessage j)
    else
      .error ("Error", "Failed to analyze token: Server returned an unexpected response")
  else if !(ctHasJson resp.contentType) then
    .error ("Error", "Invalid response from server: Unexpected content type")
  else
    match resp.json with
    | none => .error ("SyntaxError", "Unexpected token in JSON")
    | some j =>
      if jsTruthy j && (jsTypeof j == "object") then .ok j
      else .error ("Error", "Invalid data received from server")

/-- The catch block of `scanToken` (src/script.js lines 158-177): classify
the thrown error by its name and message text into the displayed
(title, detail) pair. -/
def catchClassify (name msg : String) : String × String :=
  if name == "AbortError" then
    ("Request timeout", "The analysis is taking too long. Please try again.")
  else if msg == "Failed to fetch" || strIncludes msg "NetworkError" then
    ("Connection error",
      "Cannot connect to the analysis service at " ++ API_BASE_URL ++
      ". Please check your connection and try again.")
  else if strIncludes msg "currently unavailable" then
    ("Service unavailable",
      "The analysis service is currently down for maintenance. Please try again in a few minutes.")
  else
    ("Analysis failed",
      "Error: " ++ msg ++ "\nPlease try again or contact support if the issue persists.")

/-- A network request issued by the dispatch page. -/
inductive Request where
  | health
  | analyze (addr : String)
deriving DecidableEq, Repr

/-- An observable action of `scanToken`: button state changes
(`showLoading` disables, `hideLoading` enables), network requests, the
error display, the session-storage write, and navigation. -/
inductive ScanAction where
  | buttonDisable
  | buttonEnable
  | request (r : Request)
  | showErrorMsg (title detail : String)
  | storeData (j : Json)
  | navigate (url : String)

/-- An error exit of the `try` block: `showError` (which itself re-enables
the button via `hideLoading`) followed by the `finally` block's
`hideLoading`. -/
def errorExit (p : String × String) : List ScanAction :=
  [.showErrorMsg p.1 p.2, .buttonEnable, .buttonEnable]

/-- Hexadecimal digit (uppercase), as `encodeURIComponent` emits. -/
def hexDigit (n : Nat) : Char :=
  if n < 10 then Char.ofNat (48 + n) else Char.ofNat (55 + n)

/-- UTF-8 bytes of a code point. -/
def utf8Bytes (n : Nat) : List Nat :=
  if n < 0x80 then [n]
  else if n < 0x800 then [0xC0 + n / 64, 0x80 + n % 64]
  else if n < 0x10000 then [0xE0 + n / 4096, 0x80 + (n / 64) % 64, 0x80 + n % 64]
  else [0xF0 + n / 262144, 0x80 + (n / 4096) % 64, 0x80 + (n / 64) % 64, 0x80 + n % 64]

/-- The characters `encodeURIComponent` leaves unescaped: alphanumerics and
`-_.!~*'()`, by code point. -/
def isUriUnreserved (c : Char) : Bool :=
  let n := c.toNat
  (48 ≤ n && n ≤ 57) || (65 ≤ n && n ≤ 90) || (97 ≤ n && n ≤ 122) ||
  n == 45 || n == 95 || n == 46 || n == 33 || n == 126 || n == 42 ||
  n == 39 || n == 40 || n == 41

/-- Per-character encoding: unreserved characters pass through, everything
else is percent-encoded byte by byte. -/
def encodeChar (c : Char) : List Char :=
  if isUriUnreserved c then [c]
  else (utf8Bytes c.toNat).flatMap (fun b => ['%', hexDigit (b / 16), hexDigit (b % 16)])

/-- Model of `encodeURIComponent`. -/
def encodeURIComponent (s : String) : String :=
  ⟨s.data.foldr (fun c acc => encodeChar c ++ acc) []⟩

/-- The results-page URL built on a successful scan
(src/script.js line 151). -/
def resultsUrl (addr : String) : String :=
  "results.html?address=" ++ encodeURIComponent addr

/-- The analysis endpoint URL, built by raw string interpolation of the
address (src/script.js line 112). -/
def analyzeUrl (addr : String) : String :=
  API_BASE_URL ++ "/api/analyze/" ++ addr

/-- The environment of one scan attempt: the input field's value, and the
network's behaviour for the health probe and for the analysis call. -/
structure ScanEnv where
  input : String
  healthNet : Pending
  analysisNet : Pending

/-- The body of `scanToken` after `showLoading` (src/script.js lines
100-180): health gate, analysis fetch, classification, and the `finally`
re-enable. -/
def scanAfterValidation (addr : String) (healthNet analysisNet : Pending) :
    List ScanAction :=
  .buttonDisable :: .request .health ::
  (if !(checkServiceHealth healthNet) then
    errorExit (catchClassify "Error"
      "Analysis service is currently unavailable. Please try again later.")
  else
    .request (.analyze addr) ::
    match (fetchWithTimeout none analysisNet).result with
    | .failure name msg => errorExit (catchClassify name msg)
    | .response resp =>
      match analyzeClassify resp with
      | .error e => errorExit (catchClassify e.1 e.2)
      | .ok data =>
        [.storeData data, .navigate (resultsUrl addr), .buttonEnable])

/-- Model of `String.prototype.trim`: strip leading and trailing
whitespace. -/
def jsTrim (s : String) : String :=
  ⟨((s.data.dropWhile Char.isWhitespace).reverse.dropWhile
      Char.isWhitespace).reverse⟩

/-- `scanToken` (src/script.js lines 82-181) as an action trace: trim the
input, reject empty and malformed addresses before any network activity,
then run the guarded fetch pipeline. -/
def scanToken (env : ScanEnv) : List ScanAction :=
  let tokenAddress := jsTrim env.input
  if tokenAddress.data.isEmpty then
    [.showErrorMsg "Please enter a token address" ""]
  else if !(isValidSolanaAddress tokenAddress) then
    [.showErrorMsg "Invalid Solana token address"
      "Please enter a valid Solana token address (32-44 characters)"]
  else
    scanAfterValidation tokenAddress env.healthNet env.analysisNet

/-- The network requests of a trace, in order. -/
def requestsOf : List ScanAction → List Request
  | [] => []
  | .request r :: rest => r :: requestsOf rest
  | _ :: rest => requestsOf rest

/-- The first displayed error of a trace, if any. -/
def shownError : List ScanAction → Option (String × String)
  | [] => none
  | .showErrorMsg t d :: _ => some (t, d)
  | _ :: rest => shownError rest

/-- The navigation target of a trace, if any. -/
def navigatedUrl : List ScanAction → Option String
  | [] => none
  | .navigate u :: _ => some u
  | _ :: rest => navigatedUrl rest

/-- The scan button's disabled state after replaying a trace (initially
enabled). -/
def finalDisabled (l : List ScanAction) : Bool :=
  l.foldl (fun b a =>
    match a with
    | .buttonDisable => true
    | .buttonEnable => false
    | _ => b) false

/-- Whether an action re-enables the button. -/
def isEnableAct : ScanAction → Bool
  | .buttonEnable => true
  | _ => false

/-- `requestsGuarded d l`: replaying `l` from button-disabled state `d`,
every network request is issued while the button is disabled and some later
action re-enables it. -/
def requestsGuarded : Bool → List ScanAction → Bool
  | _, [] => true
  | _, .buttonDisable :: rest => requestsGuarded true rest
  | _, .buttonEnable :: rest => requestsGuarded false rest
  | d, .request _ :: rest => d && rest.any isEnableAct && requestsGuarded d rest
  | d, .showErrorMsg _ _ :: rest => requestsGuarded d rest
  | d, .storeData _ :: rest => requestsGuarded d rest
  | d, .navigate _ :: rest => requestsGuarded d rest

/-- Template-literal rendering of a possibly-undefined value
(`${undefined}` prints `undefined`). -/
def dispStr : Option Json → String
  | none => "undefined"
  | some j => jsToString j

/-- `element.textContent = v`: `textContent` is a nullable DOM string, so
`undefined` and `null` assign the empty string; other values coerce. -/
def textContentStr : Option Json → String
  | none => ""
  | some .null => ""
  | some j => jsToString j

/-- Strict equality `v === s` of a possibly-undefined value against a
string literal. -/
def isStrVal (o : Option Json) (s : String) : Bool :=
  match o with
  | some (.str t) => t == s
  | _ => false

/-- `updateRiskScore` (src/results.js lines 38-53): band the score into a
CSS class and a label; default low, `score >= 70` high, else `score >= 30`
medium.  `none` stands for `NaN` (both comparisons false). -/
def updateRiskScore (score : Option Int) : String × String :=
  match score with
  | none => ("score-low", "Low Risk")
  | some s =>
    if s ≥ 70 then ("score-high", "High Risk")
    else if s ≥ 30 then ("score-medium", "Medium Risk")
    else ("score-low", "Low Risk")

/-- `parseInt` where the argument may be `undefined`. -/
def jsParseIntO : Option Json → Option Int
  | none => none
  | some j => jsParseInt j

/-- One entry of the security-checks list (src/results.js lines 92-101):
icon by `check.status === 'passed'`, then verbatim title and description;
reading a property of a `null` element throws. -/
def securityItem (check : Json) : Except Unit (String × String × String) :=
  match check with
  | .null => .error ()
  | c =>
    let icon := if isStrVal (jsGet c "status") "passed" then "✅" else "⚠️"
    .ok (icon, dispStr (jsGet c "title"), dispStr (jsGet c "description"))

/-- One entry of the contract-analysis list (src/results.js lines 107-117):
icon by `item.risk_level` (`high` red, `medium` yellow, else green), then
verbatim title and details. -/
def contractItem (item : Json) : Except Unit (String × String × String) :=
  match item with
  | .null => .error ()
  | c =>
    let icon :=
      if isStrVal (jsGet c "risk_level") "high" then "🔴"
      else if isStrVal (jsGet c "risk_level") "medium" then "🟡"
      else "🟢"
    .ok (icon, dispStr (jsGet c "title"), dispStr (jsGet c "details"))

/-- `if (x) x.forEach(...)` over a possibly-absent list field: arrays map
their elements, a truthy non-array value has no `forEach` and throws, a
falsy or absent value renders nothing. -/
def forEachItems (o : Option Json)
    (f : Json → Except Unit (String × String × String)) :
    Except Unit (List (String × String × String)) :=
  match o with
  | some (.arr l) => l.mapM f
  | some j => if jsTruthy j then .error () else pure []
  | none => pure []

/-- The fixed display regions `displayResults` populates. -/
structure ResultsView where
  tokenName : String
  tokenAddr : String
  riskClass : String
  riskText : String
  securityItems : List (String × String × String)
  contractItems : List (String × String × String)
deriving DecidableEq, Repr

/-- The Transfer Channel slot as the renderer reads it: absent
(`getItem` returned `null`, which `JSON.parse` turns into `null`), an
unparsable string (`JSON.parse` throws), or a parsed value. -/
inductive Stored where
  | absent
  | malformed
  | value (j : Json)

/-- `displayResults` (src/results.js lines 67-122) up to its catch: read and
parse the Transfer Channel, reject falsy data, then populate token info,
risk score (`riskScore ? parseInt(riskScore) : 0`), security checks and
contract analysis; any throw (missing `token_info`/`risk_analysis`, non-list
check fields, null list elements) aborts the render. -/
def displayResultsCore (stored : Stored) : Except Unit ResultsView := do
  let data ← match stored with
    | .absent => pure Json.null
    | .malformed => .error ()
    | .value j => pure j
  if !(jsTruthy data) then .error ()
  let tokenInfo := jsGet data "token_info"
  let nameV ← jsProp tokenInfo "name"
  let addrV ← jsProp tokenInfo "address"
  let riskScoreV ← jsProp (jsGet data "risk_analysis") "score"
  let scoreArg : Option Int :=
    if jsTruthyO riskScoreV then jsParseIntO riskScoreV else some 0
  let rs := updateRiskScore scoreArg
  let securityItems ← forEachItems (jsGet data "security_checks") securityItem
  let contractItems ← forEachItems (jsGet data "contract_analysis") contractItem
  pure
    { tokenName := if jsTruthyO nameV then jsToString (nameV.getD .null) else "Unknown Token"
      tokenAddr := textContentStr addrV
      riskClass := rs.1
      riskText := rs.2
      securityItems := securityItems
      contractItems := contractItems }

/-- An observable action of the results page. -/
inductive ResultsAction where
  | fetchUrl (url : String)
  | renderErrorBody (msg : String)
  | renderResults (v : ResultsView)
deriving DecidableEq, Repr

/-- The load-time state of the results page: the `address` query parameter
(`none` when absent) and the Transfer Channel slot. -/
structure ResultsEnv where
  queryAddress : Option String
  stored : Stored

/-- The executed top level of src/results.js (lines 144-148): without an
address the blocking no-address view, otherwise `displayResults`, whose
catch replaces the body with the failure view.  (`init`/`fetchTokenData`
are defined in the file but never invoked.) -/
def resultsPage (env : ResultsEnv) : List ResultsAction :=
  match env.queryAddress with
  | none => [.renderErrorBody "No token address provided"]
  | some a =>
    if a.isEmpty then [.renderErrorBody "No token address provided"]
    else
      match displayResultsCore env.stored with
      | .error _ => [.renderErrorBody "Failed to load token analysis results"]
      | .ok v => [.renderResults v]

/-- Insert a thousands separator after every third character of a reversed
digit list. -/
def groupRev : List Char → List Char
  | a :: b :: c :: d :: rest => a :: b :: c :: ',' :: groupRev (d :: rest)
  | l => l

/-- Left-pad a numeral with zeros to `d` digits. -/
def padZeros (s : String) (d : Nat) : String :=
  ⟨List.replicate (d - s.data.length) '0'⟩ ++ s

/-- Model of `Number.prototype.toLocaleString('en-US', { minimumFractionDigits:
d, maximumFractionDigits: d })`: round to `d` fraction digits half away from
zero, group the integer digits in threes with commas, and print exactly `d`
fraction digits (no decimal point when `d = 0`). -/
def toLocaleStringEnUS (q : JsNum) (d : Nat) : String :=
  let n := q.scaledRoundHalfExpand d
  let sign := if n < 0 then "-" else ""
  let m := n.natAbs
  let ip := m / 10 ^ d
  let fp := m % 10 ^ d
  let ipStr : String := ⟨(groupRev (toString ip).data.reverse).reverse⟩
  sign ++ ipStr ++ (if d == 0 then "" else "." ++ padZeros (toString fp) d)

/-- `formatNumber` (src/unnamed/part_001 lines 10-16): a non-number
(`typeof num !== 'number'`) degrades to the literal `"0"`; a number is
rendered by `toLocaleString('en-US')` with exactly `decimals` fraction
digits (default 2). -/
def formatNumber (num : Json) (decimals : Nat := 2) : String :=
  match num with
  | .num q => toLocaleStringEnUS q decimals
  | _ => "0"

/-- `formatCurrency` (src/unnamed/part_001 lines 19-21): dollar prefix on
`formatNumber` with its default two decimals. -/
def formatCurrency (amount : Json) : String :=
  "$" ++ formatNumber amount

/-- JavaScript numeric coercion `Number(v)` of a possibly-undefined value;
`none` stands for `NaN`.  String parsing is modelled for integer numerals
only (the only strings the program's arithmetic can meet), other strings
map to `NaN`. -/
def jsToNumber : Option Json → Option JsNum
  | none => none
  | some .null => some (jnum 0)
  | some (.bool b) => some (jnum (if b then 1 else 0))
  | some (.num q) => some q
  | some (.str s) =>
    if s.data.all Char.isDigit && !s.data.isEmpty then
      (digitsVal s.data).map (fun n => jnum (n : Int))
    else none
  | some (.arr _) => none
  | some (.obj _) => none

/-- `updateSecurityScore` (src/unnamed/part_001 lines 24-43): the displayed
`Math.round(score)` text and the colour band (`score >= 80` success,
`score >= 50` warning, else danger; `NaN` fails both comparisons). -/
def updateSecurityScore (scoreV : Option Json) : String × String :=
  let n := jsToNumber scoreV
  let scoreText := match n with
    | none => "NaN"
    | some q => toString q.roundHalfUp
  let color := match n with
    | none => "var(--danger-color)"
    | some q =>
      if q.geInt 80 then "var(--success-color)"
      else if q.geInt 50 then "var(--warning-color)"
      else "var(--danger-color)"
  (scoreText, color)

/-- One risk factor of `createRiskFactor` (src/unnamed/part_001 lines
46-57): verbatim title and description; a `null` element throws on property
access. -/
def riskFactorItem (risk : Json) : Except Unit (String × String) :=
  match risk with
  | .null => .error ()
  | c => .ok (dispStr (jsGet c "title"), dispStr (jsGet c "description"))

/-- The `risks && risks.length > 0` guard with `forEach` (src/unnamed/
part_001 lines 91-95): arrays render when non-empty; a non-empty string has
a positive `length` but no `forEach` and throws; anything else has an
`undefined` length and renders nothing. -/
def renderRisks (o : Option Json) : Except Unit (List (String × String)) :=
  match o with
  | some (.arr l) => if l.length > 0 then l.mapM riskFactorItem else pure []
  | some (.str s) => if s.data.length > 0 then .error () else pure []
  | _ => pure []

/-- The tag → icon table of `createLinkButton` with its generic fallback. -/
def linkIcon (type_ : String) : String :=
  (([("x", "𝕏"), ("telegram", "📱"), ("website", "🌐"),
     ("github", "💻"), ("discord", "💬")] : List (String × String)).lookup
    type_).getD "🔗"

/-- `type.charAt(0).toUpperCase() + type.slice(1)`. -/
def capitalizeFirst (s : String) : String :=
  match s.data with
  | [] => ""
  | c :: rest => ⟨c.toUpper :: rest⟩

/-- One verification-link button (src/unnamed/part_001 lines 60-76): icon
with fallback, capitalized tag, and the coerced href. -/
def linkButton (type_ : String) (url : Json) : String × String :=
  (linkIcon type_ ++ " " ++ capitalizeFirst type_, jsToString url)

/-- `Object.entries(links).forEach` (src/unnamed/part_001 lines 106-110):
objects enumerate their fields; primitive values enumerate nothing (string
character enumeration is not modelled — no claim depends on it). -/
def renderLinks (o : Option Json) : List (String × String) :=
  match o with
  | some (.obj fs) => fs.map fun p => linkButton p.1 p.2
  | _ => []

/-- The display regions `updateUI` populates in the URL-payload variant. -/
structure VariantView where
  tokenName : String
  tokenAddr : String
  scoreText : String
  scoreColor : String
  riskItems : List (String × String)
  totalLiquidity : String
  lpProviders : String
  totalSupply : String
  links : List (String × String)
  upvotes : String
  downvotes : String
deriving DecidableEq, Repr

/-- `updateUI` (src/unnamed/part_001 lines 79-119): populate every region
in source order; any property read on a nullish sub-record throws and is
caught by `init`'s handler. -/
def updateUIModel (data : Json) : Except Unit VariantView := do
  let ti := jsGet data "token_info"
  let nameV ← jsProp ti "name"
  let symV ← jsProp ti "symbol"
  let mintV ← jsProp ti "mint"
  let scoreV ← jsProp (jsGet data "security") "security_score"
  let sc := updateSecurityScore scoreV
  let risksV ← jsProp (jsGet data "security") "risks"
  let riskItems ← renderRisks risksV
  let liqV ← jsProp (jsGet data "market_data") "total_liquidity"
  let lpV ← jsProp (jsGet data "market_data") "lp_providers"
  let supplyV ← jsProp (jsGet data "token_info") "supply"
  let linksV ← jsProp (jsGet data "verification") "links"
  let upV ← jsProp (jsGet data "community") "upvotes"
  let downV ← jsProp (jsGet data "community") "downvotes"
  pure
    { tokenName := dispStr nameV ++ " (" ++ dispStr symV ++ ")"
      tokenAddr := textContentStr mintV
      scoreText := sc.1
      scoreColor := sc.2
      riskItems := riskItems
      totalLiquidity := formatCurrency (liqV.getD .null)
      lpProviders := textContentStr lpV
      totalSupply := formatNumber (supplyV.getD .null) 0
      links := renderLinks linksV
      upvotes := textContentStr upV
      downvotes := textContentStr downV }

/-- Outcome of the URL-payload variant's `init`: the blocking
no-data error view, the blocking render-failure error view, or the
populated UI. -/
inductive VOut where
  | noDataError
  | renderError
  | ui (v : VariantView)

/-- `init` of the URL-payload variant (src/unnamed/part_001 lines 133-147):
a missing (or falsy) `data` query parameter is the blocking
`No token data provided` view; otherwise the payload is decoded and parsed
(`decodeURIComponent` + `JSON.parse`, failure caught by `handleError`) and
`updateUI` renders it, its own throws also caught by `handleError`.  The
variant never consults the Transfer Channel. -/
def initUrlPayload (dataParam : Stored) : VOut :=
  match dataParam with
  | .absent => .noDataError
  | .malformed => .renderError
  | .value j =>
    match updateUIModel j with
    | .error _ => .renderError
    | .ok v => .ui v

/-! ## Concrete test fixtures -/

/-- A 32-character Base58 address. -/
def addrA : String := "AAAAAAAAAAAAAAAAAAAAAAAAAAAAAAAA"

/-- A health probe that answers OK immediately. -/
def okHealth : Pending := ⟨0, .response ⟨true, none, none⟩⟩

/-- A well-formed stored `AnalysisResult` with the given (optional)
`risk_analysis.score`. -/
def mkData (score : Option Json) : Json :=
  .obj [("token_info", .obj [("name", .str "Tok"), ("address", .str "Addr")]),
        ("risk_analysis", .obj (match score with
          | some v => [("score", v)]
          | none => []))]

/-! ## Helper lemmas -/

theorem base58_isUriUnreserved {c : Char} (h : isBase58Char c = true) :
    isUriUnreserved c = true := by
  simp only [isBase58Char, Bool.or_eq_true, Bool.and_eq_true,
    decide_eq_true_eq] at h
  simp only [isUriUnreserved, Bool.or_eq_true, Bool.and_eq_true,
    decide_eq_true_eq, beq_iff_eq]
  omega

theorem encodeChar_base58 {c : Char} (h : isBase58Char c = true) :
    encodeChar c = [c] := by
  unfold encodeChar
  rw [if_pos (base58_isUriUnreserved h)]

theorem encode_fold_id {l : List Char} (h : l.all isBase58Char = true) :
    l.foldr (fun c acc => encodeChar c ++ acc) [] = l := by
  induction l with
  | nil => rfl
  | cons c cs ih =>
    simp only [List.all_cons, Bool.and_eq_true] at h
    simp only [List.foldr, encodeChar_base58 h.1, ih h.2, List.cons_append,
      List.nil_append]

theorem startsWithChars_self_append (p z : List Char) :
    startsWithChars (p ++ z) p = true := by
  induction p with
  | nil => simp [startsWithChars]
  | cons c cs ih => simp [startsWithChars, ih]

theorem occursIn_self_append (pat z : List Char) :
    occursIn (pat ++ z) pat = true := by
  cases pat with
  | nil =>
    cases z with
    | nil => simp [occursIn, List.isEmpty]
    | cons d ds => simp [occursIn, startsWithChars]
  | cons p ps =>
    have h := startsWithChars_self_append (p :: ps) z
    simp only [List.cons_append] at h ⊢
    simp [occursIn, h]

theorem occursIn_mid (x y pat : List Char) :
    occursIn (x ++ (pat ++ y)) pat = true := by
  induction x with
  | nil => simpa using occursIn_self_append pat y
  | cons c cs ih => simp [occursIn, ih]

theorem validator_characterisation (s : String) :
    isValidSolanaAddress s = true ↔
      (32 ≤ s.data.length ∧ s.data.length ≤ 44 ∧
        s.data.all isBase58Char = true) := by
  unfold isValidSolanaAddress
  split_ifs with h1 h2
  · simp only [List.isEmpty_iff] at h1
    simp [h1]
  · simp only [Bool.or_eq_true, decide_eq_true_eq] at h2
    constructor
    · intro h; cases h
    · intro h; omega
  · simp only [Bool.or_eq_true, decide_eq_true_eq, not_or, not_lt] at h2
    simp only [Bool.and_eq_true, decide_eq_true_eq]
    constructor
    · rintro ⟨⟨ha, hl⟩, hr⟩; exact ⟨hl, hr, ha⟩
    · rintro ⟨hl, hr, ha⟩; exact ⟨⟨ha, hl⟩, hr⟩

/-- C3: the address validator accepts a string iff its length is in
[32, 44] and every character is Base58 (digits 1-9, uppercase without I
and O, lowercase without l); the empty string, every string of
out-of-range length, and every string containing a character outside the
alphabet (in particular any of `0OIl`) are rejected.  It is a pure
function of the input string. -/
theorem address_validator_spec :
    (∀ s : String, isValidSolanaAddress s = true ↔
      (32 ≤ s.data.length ∧ s.data.length ≤ 44 ∧
        s.data.all isBase58Char = true)) ∧
    isValidSolanaAddress "" = false ∧
    (∀ s : String, s.data.length < 32 ∨ 44 < s.data.length →
      isValidSolanaAddress s = false) ∧
    ("0OIl".data.all (fun c => !isBase58Char c) = true) ∧
    (∀ (s : String) (c : Char), c ∈ s.data → isBase58Char c = false →
      isValidSolanaAddress s = false) := by
  refine ⟨validator_characterisation, by decide, ?_, by decide, ?_⟩
  · intro s h
    rcases hv : isValidSolanaAddress s with _ | _
    · rfl
    · have := (validator_characterisation s).mp hv
      omega
  · intro s c hc hbad
    rcases hv : isValidSolanaAddress s with _ | _
    · rfl
    · have h := ((validator_characterisation s).mp hv).2.2
      rw [List.all_eq_true] at h
      have := h c hc
      rw [hbad] at this
      cases this

theorem address_validator_spec_witness :
    isValidSolanaAddress addrA = true ∧
    isValidSolanaAddress "0AAAAAAAAAAAAAAAAAAAAAAAAAAAAAAA" = false :=
  ⟨(address_validator_spec.1 addrA).mpr (by decide),
    address_validator_spec.2.2.2.2 "0AAAAAAAAAAAAAAAAAAAAAAAAAAAAAAA" '0'
      (by decide) (by decide)⟩

/-- C10: on every string the validator accepts, `encodeURIComponent` is the
identity (every Base58 character is URL-safe), so the analysis URL built by
raw interpolation and the results URL built with `encodeURIComponent` embed
exactly the same address string. -/
theorem base58_urlencode_identity :
    ∀ s : String, isValidSolanaAddress s = true →
      encodeURIComponent s = s ∧
      resultsUrl s = "results.html?address=" ++ s ∧
      analyzeUrl s = API_BASE_URL ++ "/api/analyze/" ++ s := by
  intro s hv
  have hall : s.data.all isBase58Char = true :=
    ((validator_characterisation s).mp hv).2.2
  have henc : encodeURIComponent s = s := by
    unfold encodeURIComponent
    rw [encode_fold_id hall]
  exact ⟨henc, by rw [resultsUrl, henc], rfl⟩

theorem base58_urlencode_identity_witness :
    encodeURIComponent addrA = addrA ∧
    resultsUrl addrA = "results.html?address=" ++ addrA :=
  ⟨(base58_urlencode_identity addrA (by decide)).1,
    (base58_urlencode_identity addrA (by decide)).2.1⟩

/-- C2: `updateRiskScore` bands every numeric score into exactly one
category — below 30 low, 30 to 69 medium, 70 and above high — and on a
well-formed stored result the rendered label is `High Risk` at score 85,
`Medium Risk` at 45, `Low Risk` at 10, and `Low Risk` when the score is
absent (the renderer defaults it to 0). -/
theorem risk_score_banding :
    (∀ s : Int,
      (s < 30 → updateRiskScore (some s) = ("score-low", "Low Risk")) ∧
      (30 ≤ s → s < 70 →
        updateRiskScore (some s) = ("score-medium", "Medium Risk")) ∧
      (70 ≤ s → updateRiskScore (some s) = ("score-high", "High Risk"))) ∧
    (displayResultsCore (.value (mkData (some (.num (jnum 85)))))).map
      (·.riskText) = .ok "High Risk" ∧
    (displayResultsCore (.value (mkData (some (.num (jnum 45)))))).map
      (·.riskText) = .ok "Medium Risk" ∧
    (displayResultsCore (.value (mkData (some (.num (jnum 10)))))).map
      (·.riskText) = .ok "Low Risk" ∧
    (displayResultsCore (.value (mkData none))).map
      (·.riskText) = .ok "Low Risk" := by
  refine ⟨?_, by rfl, by rfl, by rfl, by rfl⟩
  intro s
  refine ⟨fun h => ?_, fun h1 h2 => ?_, fun h => ?_⟩ <;>
    simp only [updateRiskScore] <;> split_ifs <;> first | rfl | omega

theorem risk_score_banding_witness :
    updateRiskScore (some 85) = ("score-high", "High Risk") ∧
    updateRiskScore (some 45) = ("score-medium", "Medium Risk") ∧
    updateRiskScore (some 10) = ("score-low", "Low Risk") :=
  ⟨(risk_score_banding.1 85).2.2 (by decide),
    (risk_score_banding.1 45).2.1 (by decide) (by decide),
    (risk_score_banding.1 10).1 (by decide)⟩

/-- C9: `formatCurrency(1234.5)` renders `$1,234.50` (dollar prefix,
thousands separator, exactly two decimals), `formatNumber(1000000, 0)`
renders `1,000,000`, and every non-number input (such as the string `x`)
degrades to the literal `0` for any decimals argument. -/
theorem formatter_spec :
    formatCurrency (.num ⟨12345, 1⟩) = "$1,234.50" ∧
    formatNumber (.num (jnum 1000000)) 0 = "1,000,000" ∧
    formatNumber (.str "x") = "0" ∧
    (∀ (j : Json) (d : Nat), jsTypeof j ≠ "number" → formatNumber j d = "0") := by
  refine ⟨by decide, by decide, by decide, ?_⟩
  intro j d h
  cases j
  case num => exact absurd rfl h
  all_goals rfl

theorem formatter_spec_witness :
    jsTypeof (.str "x") ≠ "number" ∧ formatNumber (.str "x") 2 = "0" :=
  ⟨by decide, formatter_spec.2.2.2 (.str "x") 2 (by decide)⟩

theorem valid_nonempty {s : String} (h : isValidSolanaAddress s = true) :
    s.data.isEmpty = false := by
  have hc := (validator_characterisation s).mp h
  rcases he : s.data.isEmpty with _ | _
  · rfl
  · rw [List.isEmpty_iff] at he
    rw [he] at hc
    simp at hc

theorem scanToken_empty (env : ScanEnv)
    (h : (jsTrim env.input).data.isEmpty = true) :
    scanToken env = [.showErrorMsg "Please enter a token address" ""] := by
  simp [scanToken, h]

theorem scanToken_invalid (env : ScanEnv)
    (h1 : (jsTrim env.input).data.isEmpty = false)
    (h2 : isValidSolanaAddress (jsTrim env.input) = false) :
    scanToken env = [.showErrorMsg "Invalid Solana token address"
      "Please enter a valid Solana token address (32-44 characters)"] := by
  simp [scanToken, h1, h2]

theorem scanToken_valid (env : ScanEnv)
    (h : isValidSolanaAddress (jsTrim env.input) = true) :
    scanToken env =
      scanAfterValidation (jsTrim env.input) env.healthNet env.analysisNet := by
  simp [scanToken, valid_nonempty h, h]

theorem unavailClassify :
    catchClassify "Error"
        "Analysis service is currently unavailable. Please try again later." =
      ("Service unavailable",
        "The analysis service is currently down for maintenance. Please try again in a few minutes.") := by
  decide

theorem scanAfterValidation_unhealthy (a : String) (hN aN : Pending)
    (h : checkServiceHealth hN = false) :
    scanAfterValidation a hN aN =
      [.buttonDisable, .request .health,
        .showErrorMsg "Service unavailable"
          "The analysis service is currently down for maintenance. Please try again in a few minutes.",
        .buttonEnable, .buttonEnable] := by
  simp [scanAfterValidation, h, unavailClassify, errorExit]

theorem scanAfterValidation_healthy (a : String) (hN aN : Pending)
    (h : checkServiceHealth hN = true) :
    scanAfterValidation a hN aN =
      .buttonDisable :: .request .health :: .request (.analyze a) ::
        (match (fetchWithTimeout none aN).result with
         | .failure name msg => errorExit (catchClassify name msg)
         | .response resp =>
           match analyzeClassify resp with
           | .error e => errorExit (catchClassify e.1 e.2)
           | .ok data =>
             [.storeData data, .navigate (resultsUrl a), .buttonEnable]) := by
  simp [scanAfterValidation, h]

/-- C6: an input that trims to the empty string shows the empty-input
error and issues no network request; a non-empty malformed input issues no
network request either and shows the distinct invalid-format error with a
different message. -/
theorem validation_no_network_spec :
    (∀ env : ScanEnv, (jsTrim env.input).data.isEmpty = true →
      scanToken env = [.showErrorMsg "Please enter a token address" ""] ∧
      requestsOf (scanToken env) = []) ∧
    (∀ env : ScanEnv, (jsTrim env.input).data.isEmpty = false →
      isValidSolanaAddress (jsTrim env.input) = false →
      scanToken env = [.showErrorMsg "Invalid Solana token address"
        "Please enter a valid Solana token address (32-44 characters)"] ∧
      requestsOf (scanToken env) = []) ∧
    ("Please enter a token address", "") ≠
      ("Invalid Solana token address",
        "Please enter a valid Solana token address (32-44 characters)") := by
  refine ⟨?_, ?_, by decide⟩
  · intro env h
    rw [scanToken_empty env h]
    exact ⟨rfl, rfl⟩
  · intro env h1 h2
    rw [scanToken_invalid env h1 h2]
    exact ⟨rfl, rfl⟩

theorem validation_no_network_witness :
    scanToken ⟨"   ", okHealth, okHealth⟩ =
      [.showErrorMsg "Please enter a token address" ""] ∧
    scanToken ⟨"abc", okHealth, okHealth⟩ =
      [.showErrorMsg "Invalid Solana token address"
        "Please enter a valid Solana token address (32-44 characters)"] :=
  ⟨(validation_no_network_spec.1 ⟨"   ", okHealth, okHealth⟩ (by decide)).1,
    (validation_no_network_spec.2.1 ⟨"abc", okHealth, okHealth⟩
      (by decide) (by decide)).1⟩

/-- C7: on every execution of the scan operation the button ends enabled
(every exit path runs the `finally` re-enable), and every network request
is issued while the button is disabled with a later re-enabling action —
i.e. an attempt that reaches the loading state holds the button disabled
for its full duration and no exit path leaves it disabled. -/
theorem button_reenable_spec :
    ∀ env : ScanEnv,
      finalDisabled (scanToken env) = false ∧
      requestsGuarded false (scanToken env) = true := by
  intro env
  rcases h1 : (jsTrim env.input).data.isEmpty with _ | _
  case true => rw [scanToken_empty env h1]; exact ⟨rfl, rfl⟩
  rcases h2 : isValidSolanaAddress (jsTrim env.input) with _ | _
  case false => rw [scanToken_invalid env h1 h2]; exact ⟨rfl, rfl⟩
  rw [scanToken_valid env h2]
  rcases h3 : checkServiceHealth env.healthNet with _ | _
  case false =>
    rw [scanAfterValidation_unhealthy _ _ env.analysisNet h3]
    exact ⟨rfl, rfl⟩
  rw [scanAfterValidation_healthy _ env.healthNet _ h3]
  cases hr : (fetchWithTimeout none env.analysisNet).result with
  | response r =>
    cases he : analyzeClassify r with
    | error e => simp [he, finalDisabled, requestsGuarded, errorExit, isEnableAct]
    | ok data => simp [he, finalDisabled, requestsGuarded, errorExit, isEnableAct]
  | failure name msg =>
    simp [finalDisabled, requestsGuarded, errorExit, isEnableAct]

theorem checkServiceHealth_timeout (p : Pending) (h : 5000 ≤ p.time) :
    checkServiceHealth p = false := by
  simp only [checkServiceHealth, fetchWithTimeout]
  rw [show effTimeout (some 5000) = 5000 from rfl, if_pos h]

theorem checkServiceHealth_notok (p : Pending) (r : HttpResponse)
    (hr : p.outcome = .response r) (hok : r.ok = false) :
    checkServiceHealth p = false := by
  by_cases ht : 5000 ≤ p.time
  · exact checkServiceHealth_timeout p ht
  · simp only [checkServiceHealth, fetchWithTimeout]
    rw [show effTimeout (some 5000) = 5000 from rfl, if_neg ht, hr]
    exact hok

theorem checkServiceHealth_failure (p : Pending) (name msg : String)
    (hr : p.outcome = .failure name msg) :
    checkServiceHealth p = false := by
  by_cases ht : 5000 ≤ p.time
  · exact checkServiceHealth_timeout p ht
  · simp only [checkServiceHealth, fetchWithTimeout]
    rw [show effTimeout (some 5000) = 5000 from rfl, if_neg ht, hr]

/-- C4: the health check fails on deadline expiry, on a non-success
status, and on a transport failure; whenever it fails on a scan attempt
with a valid address, the only request issued is the health probe (the
analysis request is never issued) and the Service-unavailable error is
shown; and on every scan attempt an analysis request is issued only when
the health check succeeded. -/
theorem health_gate_spec :
    (∀ p : Pending, 5000 ≤ p.time → checkServiceHealth p = false) ∧
    (∀ (p : Pending) (r : HttpResponse), p.outcome = .response r →
      r.ok = false → checkServiceHealth p = false) ∧
    (∀ (p : Pending) (name msg : String), p.outcome = .failure name msg →
      checkServiceHealth p = false) ∧
    (∀ env : ScanEnv, isValidSolanaAddress (jsTrim env.input) = true →
      checkServiceHealth env.healthNet = false →
      requestsOf (scanToken env) = [.health] ∧
      shownError (scanToken env) = some ("Service unavailable",
        "The analysis service is currently down for maintenance. Please try again in a few minutes.")) ∧
    (∀ (env : ScanEnv) (a : String),
      Request.analyze a ∈ requestsOf (scanToken env) →
      checkServiceHealth env.healthNet = true) := by
  refine ⟨checkServiceHealth_timeout, checkServiceHealth_notok,
    checkServiceHealth_failure, ?_, ?_⟩
  · intro env hv hf
    rw [scanToken_valid env hv, scanAfterValidation_unhealthy _ _ _ hf]
    exact ⟨rfl, rfl⟩
  · intro env a h
    rcases hh : checkServiceHealth env.healthNet with _ | _
    · exfalso
      rcases h1 : (jsTrim env.input).data.isEmpty with _ | _
      · rcases h2 : isValidSolanaAddress (jsTrim env.input) with _ | _
        · rw [scanToken_invalid env h1 h2] at h
          simp [requestsOf] at h
        · rw [scanToken_valid env h2,
            scanAfterValidation_unhealthy _ _ _ hh] at h
          simp [requestsOf] at h
      · rw [scanToken_empty env h1] at h
        simp [requestsOf] at h
    · rfl

/-- A scan environment whose health probe exceeds its 5-second deadline. -/
def envHealthTimeout : ScanEnv :=
  ⟨addrA, ⟨6000, .response ⟨true, none, none⟩⟩,
    ⟨0, .response ⟨true, some "application/json", some (.obj [])⟩⟩⟩

theorem health_gate_spec_witness :
    checkServiceHealth envHealthTimeout.healthNet = false ∧
    requestsOf (scanToken envHealthTimeout) = [.health] :=
  ⟨health_gate_spec.1 envHealthTimeout.healthNet (by decide),
    (health_gate_spec.2.2.2.1 envHealthTimeout (by decide)
      (health_gate_spec.1 envHealthTimeout.healthNet (by decide))).1⟩

theorem fetchWithTimeout_aborts (t : Option Nat) (p : Pending)
    (h : effTimeout t ≤ p.time) :
    fetchWithTimeout t p =
      ⟨true, .failure "AbortError" "signal is aborted without reason"⟩ := by
  simp only [fetchWithTimeout]
  rw [if_pos h]

theorem catchClassify_abort (msg : String) :
    catchClassify "AbortError" msg =
      ("Request timeout", "The analysis is taking too long. Please try again.") := by
  simp [catchClassify]

/-- C5 counterexample: on a scan whose health probe exceeds its 5-second
deadline, the probe is cancelled (the abort signal fires), yet the shown
error is Service unavailable — not the Request-timeout error the claim
requires for a health-call deadline. -/
theorem health_timeout_not_request_timeout :
    5000 ≤ envHealthTimeout.healthNet.time ∧
    (fetchWithTimeout (some 5000) envHealthTimeout.healthNet).aborted = true ∧
    shownError (scanToken envHealthTimeout) =
      some ("Service unavailable",
        "The analysis service is currently down for maintenance. Please try again in a few minutes.") ∧
    shownError (scanToken envHealthTimeout) ≠
      some ("Request timeout",
        "The analysis is taking too long. Please try again.") := by
  decide

/-- A scan environment whose analysis call exceeds the 30-second deadline. -/
def envAnalysisTimeout : ScanEnv :=
  ⟨addrA, okHealth,
    ⟨40000, .response ⟨true, some "application/json", some (.obj [])⟩⟩⟩

/-- C5 (amended): a request that has not settled by its effective deadline
is cancelled (the abort timer fires and the fetch rejects with
`AbortError`); when the analysis call exceeds its 30-second deadline the
Request-timeout error is shown, distinct in message from the connection
error of a transport failure; a health-call deadline, however, is absorbed
by the health check and surfaces as Service unavailable. -/
theorem timeout_cancellation_spec :
    (∀ (t : Option Nat) (p : Pending), effTimeout t ≤ p.time →
      fetchWithTimeout t p =
        ⟨true, .failure "AbortError" "signal is aborted without reason"⟩) ∧
    (∀ env : ScanEnv, isValidSolanaAddress (jsTrim env.input) = true →
      checkServiceHealth env.healthNet = true →
      API_TIMEOUT ≤ env.analysisNet.time →
      shownError (scanToken env) =
        some ("Request timeout",
          "The analysis is taking too long. Please try again.")) ∧
    (("Request timeout", "The analysis is taking too long. Please try again.") ≠
      catchClassify "TypeError" "Failed to fetch") ∧
    (∀ env : ScanEnv, isValidSolanaAddress (jsTrim env.input) = true →
      5000 ≤ env.healthNet.time →
      shownError (scanToken env) =
        some ("Service unavailable",
          "The analysis service is currently down for maintenance. Please try again in a few minutes.")) := by
  refine ⟨fetchWithTimeout_aborts, ?_, by decide, ?_⟩
  · intro env hv hh ht
    rw [scanToken_valid env hv, scanAfterValidation_healthy _ _ _ hh]
    have ha := fetchWithTimeout_aborts none env.analysisNet ht
    rw [ha]
    simp [shownError, errorExit, catchClassify_abort]
  · intro env hv ht
    have hf := checkServiceHealth_timeout _ ht
    rw [scanToken_valid env hv, scanAfterValidation_unhealthy _ _ _ hf]
    rfl

theorem timeout_cancellation_spec_witness :
    shownError (scanToken envAnalysisTimeout) =
      some ("Request timeout",
        "The analysis is taking too long. Please try again.") :=
  timeout_cancellation_spec.2.1 envAnalysisTimeout (by decide) (by decide)
    (by decide)

/-- The (title, detail) pair `scanToken` displays for a settled analysis
fetch (the composition of `analyzeClassify` and the catch block), `none`
on the success path. -/
def classifyShown (outcome : FetchOutcome) : Option (String × String) :=
  match outcome with
  | .failure name msg => some (catchClassify name msg)
  | .response resp =>
    match analyzeClassify resp with
    | .error e => some (catchClassify e.1 e.2)
    | .ok _ => none

theorem fetch_passthrough (p : Pending) (h : p.time < API_TIMEOUT) :
    (fetchWithTimeout none p).result = p.outcome := by
  simp only [fetchWithTimeout]
  rw [show effTimeout none = API_TIMEOUT from rfl, if_neg (by omega)]

theorem shownError_errorExit (p : String × String) :
    shownError (.buttonDisable :: .request .health ::
      .request (.analyze a) :: errorExit p) = some p := by
  simp [shownError, errorExit]

theorem shownError_classified (env : ScanEnv)
    (hv : isValidSolanaAddress (jsTrim env.input) = true)
    (hh : checkServiceHealth env.healthNet = true)
    (ht : env.analysisNet.time < API_TIMEOUT) :
    shownError (scanToken env) = classifyShown env.analysisNet.outcome := by
  rw [scanToken_valid env hv, scanAfterValidation_healthy _ _ _ hh,
    fetch_passthrough _ ht]
  cases env.analysisNet.outcome with
  | failure name msg => exact shownError_errorExit _
  | response resp =>
    cases he : analyzeClassify resp with
    | error e => simp [he, classifyShown, shownError, errorExit]
    | ok data => simp [he, classifyShown, shownError]

theorem catchClassify_transport (m : String)
    (h : m = "Failed to fetch" ∨ strIncludes m "NetworkError" = true) :
    catchClassify "TypeError" m =
      ("Connection error",
        "Cannot connect to the analysis service at " ++ API_BASE_URL ++
        ". Please check your connection and try again.") := by
  unfold catchClassify
  rw [if_neg (by decide)]
  have hcond : (m == "Failed to fetch" || strIncludes m "NetworkError") = true := by
    rcases h with h | h
    · subst h; simp
    · simp [h]
  rw [if_pos hcond]

theorem catchClassify_generic (msg : String)
    (h1 : (msg == "Failed to fetch") = false)
    (h2 : strIncludes msg "NetworkError" = false)
    (h3 : strIncludes msg "currently unavailable" = false) :
    catchClassify "Error" msg =
      ("Analysis failed",
        "Error: " ++ msg ++
        "\nPlease try again or contact support if the issue persists.") := by
  unfold catchClassify
  rw [if_neg (by decide), if_neg (by simp [h1, h2]), if_neg (by simp [h3])]

/-- A scan whose analysis response is a non-success JSON body whose
`detail` field reads exactly `Failed to fetch`. -/
def envDetailCollision : ScanEnv :=
  ⟨addrA, okHealth, ⟨0, .response ⟨false, some "application/json",
    some (.obj [("detail", .str "Failed to fetch")])⟩⟩⟩

/-- C1 counterexample: a non-success JSON response with body
`{"detail": "Failed to fetch"}` is not surfaced verbatim — the catch
block's message matching rebrands it as the Connection error, and the
string `Failed to fetch` appears in neither the shown title nor the shown
detail. -/
theorem detail_sentinel_collision :
    shownError (scanToken envDetailCollision) =
      some ("Connection error",
        "Cannot connect to the analysis service at http://localhost:8000. Please check your connection and try again.") ∧
    strIncludes "Connection error" "Failed to fetch" = false ∧
    strIncludes
      "Cannot connect to the analysis service at http://localhost:8000. Please check your connection and try again."
      "Failed to fetch" = false := by
  decide

/-- C1 (amended): with a valid address, a passing health check and an
analysis call inside its deadline, the shown error is the classification
of the settled fetch, in this order: a transport failure (with the
browser's transport message) surfaces the connection error; a non-success
status with JSON content type and a non-empty string `detail` surfaces
that detail verbatim inside the failure detail line — provided the detail
does not collide with the sentinel phrases (`Failed to fetch`,
`NetworkError`, `currently unavailable`) the catch block matches on, which
would rebrand it; a non-success status with non-JSON content type
surfaces the generic server-error message for every body, without parsing
the body as JSON; a success status with missing or non-JSON content type
surfaces the invalid-response message; and a success status with JSON
content type whose parsed value is not an object surfaces the
invalid-data message. -/
theorem response_classification_spec :
    (∀ env : ScanEnv, isValidSolanaAddress (jsTrim env.input) = true →
      checkServiceHealth env.healthNet = true →
      env.analysisNet.time < API_TIMEOUT →
      shownError (scanToken env) = classifyShown env.analysisNet.outcome) ∧
    (∀ m : String, m = "Failed to fetch" ∨ strIncludes m "NetworkError" = true →
      classifyShown (.failure "TypeError" m) =
        some ("Connection error",
          "Cannot connect to the analysis service at http://localhost:8000. Please check your connection and try again.")) ∧
    (∀ (ct : Option String) (b : List (String × Json)) (d : String),
      ctHasJson ct = true →
      b.lookup "detail" = some (.str d) →
      d.data.isEmpty = false →
      (d == "Failed to fetch") = false →
      strIncludes d "NetworkError" = false →
      strIncludes d "currently unavailable" = false →
      classifyShown (.response ⟨false, ct, some (.obj b)⟩) =
        some ("Analysis failed",
          "Error: " ++ d ++
          "\nPlease try again or contact support if the issue persists.") ∧
      strIncludes
        ("Error: " ++ d ++
          "\nPlease try again or contact support if the issue persists.") d = true) ∧
    (∀ (ct : Option String) (b : Option Json), ctHasJson ct = false →
      classifyShown (.response ⟨false, ct, b⟩) =
        some ("Analysis failed",
          "Error: Failed to analyze token: Server returned an unexpected response\nPlease try again or contact support if the issue persists.")) ∧
    (∀ (ct : Option String) (b : Option Json), ctHasJson ct = false →
      classifyShown (.response ⟨true, ct, b⟩) =
        some ("Analysis failed",
          "Error: Invalid response from server: Unexpected content type\nPlease try again or contact support if the issue persists.")) ∧
    (∀ (ct : Option String) (j : Json), ctHasJson ct = true →
      (jsTruthy j && (jsTypeof j == "object")) = false →
      classifyShown (.response ⟨true, ct, some j⟩) =
        some ("Analysis failed",
          "Error: Invalid data received from server\nPlease try again or contact support if the issue persists.")) := by
  refine ⟨shownError_classified, ?_, ?_, ?_, ?_, ?_⟩
  · intro m h
    simp only [classifyShown, catchClassify_transport m h]
    rfl
  · intro ct b d hct hd hne h1 h2 h3
    have hdm : detailMessage (.obj b) = d := by
      simp only [detailMessage, jsGet, hd, jsTruthy, hne, jsToString]
      rfl
    have hcls : analyzeClassify ⟨false, ct, some (.obj b)⟩ =
        .error ("Error", d) := by
      simp only [analyzeClassify, hct, Bool.not_false, if_true]
      rw [hdm]
    constructor
    · simp only [classifyShown, hcls, catchClassify_generic d h1 h2 h3]
    · have : ("Error: " ++ d ++
          "\nPlease try again or contact support if the issue persists.").data =
          "Error: ".data ++ (d.data ++
            "\nPlease try again or contact support if the issue persists.".data) := by
        simp [String.data_append]
      unfold strIncludes
      rw [this]
      exact occursIn_mid _ _ _
  · intro ct b hct
    have hcls : analyzeClassify ⟨false, ct, b⟩ =
        .error ("Error",
          "Failed to analyze token: Server returned an unexpected response") := by
      simp only [analyzeClassify, hct, Bool.not_false, if_true,
        Bool.false_eq_true, if_false]
    simp only [classifyShown, hcls]
    rw [catchClassify_generic _ (by decide) (by decide) (by decide)]
    decide
  · intro ct b hct
    have hcls : analyzeClassify ⟨true, ct, b⟩ =
        .error ("Error", "Invalid response from server: Unexpected content type") := by
      simp only [analyzeClassify, hct, Bool.not_true, Bool.false_eq_true,
        if_false, Bool.not_false, if_true]
    simp only [classifyShown, hcls]
    rw [catchClassify_generic _ (by decide) (by decide) (by decide)]
    decide
  · intro ct j hct hj
    have hcls : analyzeClassify ⟨true, ct, some j⟩ =
        .error ("Error", "Invalid data received from server") := by
      simp only [analyzeClassify, hct, Bool.not_true, Bool.false_eq_true,
        if_false, hj]
    simp only [classifyShown, hcls]
    rw [catchClassify_generic _ (by decide) (by decide) (by decide)]
    decide

/-- A scan whose analysis response is a non-success JSON body with
`{"detail": "rate limited"}`. -/
def envRateLimited : ScanEnv :=
  ⟨addrA, okHealth, ⟨0, .response ⟨false, some "application/json",
    some (.obj [("detail", .str "rate limited")])⟩⟩⟩

theorem response_classification_spec_witness :
    shownError (scanToken envRateLimited) =
      some ("Analysis failed",
        "Error: rate limited\nPlease try again or contact support if the issue persists.") := by
  rw [response_classification_spec.1 envRateLimited (by decide) (by decide)
    (by decide)]
  exact (response_classification_spec.2.2.1 (some "application/json")
    [("detail", .str "rate limited")] "rate limited" (by decide) (by rfl)
    (by decide) (by decide) (by decide) (by decide)).1

/-- The network fetches of a results-page trace, in order. -/
def fetchesOf : List ResultsAction → List String
  | [] => []
  | .fetchUrl u :: rest => u :: fetchesOf rest
  | _ :: rest => fetchesOf rest

/-- C8 counterexample: with an address in the query string but an empty
Transfer Channel, the results page renders the blocking failure view and
issues no fetch — the direct-fetch fallback the claim describes never
runs (`init`/`fetchTokenData` are defined in src/results.js but never
invoked). -/
theorem transfer_channel_no_fallback :
    resultsPage ⟨some addrA, .absent⟩ =
      [.renderErrorBody "Failed to load token analysis results"] ∧
    fetchesOf (resultsPage ⟨some addrA, .absent⟩) = [] := by
  exact ⟨rfl, rfl⟩

/-- C8 (amended): on load the results page requires the `address` query
parameter — absent (or empty) it renders the single blocking no-address
view and performs no further work; with an address present it reads only
the Transfer Channel: a well-formed stored result renders, an absent or
malformed one renders the blocking failure view, and in no case is any
network fetch issued (the direct-fetch fallback is dead code).  Every
load renders exactly one view.  The URL-payload variant decodes only the
payload embedded in the query string: absent payload gives the blocking
no-data view, a decodable payload renders the UI. -/
theorem results_acquisition_spec :
    (∀ st : Stored, resultsPage ⟨none, st⟩ =
      [.renderErrorBody "No token address provided"]) ∧
    (∀ st : Stored, resultsPage ⟨some "", st⟩ =
      [.renderErrorBody "No token address provided"]) ∧
    (∀ a : String, a.isEmpty = false →
      resultsPage ⟨some a, .absent⟩ =
        [.renderErrorBody "Failed to load token analysis results"]) ∧
    (∀ a : String, a.isEmpty = false →
      resultsPage ⟨some a, .malformed⟩ =
        [.renderErrorBody "Failed to load token analysis results"]) ∧
    (∀ (a : String) (j : Json) (v : ResultsView), a.isEmpty = false →
      displayResultsCore (.value j) = .ok v →
      resultsPage ⟨some a, .value j⟩ = [.renderResults v]) ∧
    (∀ env : ResultsEnv, fetchesOf (resultsPage env) = []) ∧
    (∀ env : ResultsEnv, (resultsPage env).length = 1) ∧
    initUrlPayload .absent = .noDataError ∧
    (∀ (j : Json) (v : VariantView), updateUIModel j = .ok v →
      initUrlPayload (.value j) = .ui v) := by
  have hpage : ∀ (a : String) (st : Stored), a.isEmpty = false →
      resultsPage ⟨some a, st⟩ =
        (match displayResultsCore st with
         | .error _ => [.renderErrorBody "Failed to load token analysis results"]
         | .ok v => [.renderResults v]) := by
    intro a st h
    simp only [resultsPage]
    rw [if_neg (by simp [h])]
  refine ⟨fun st => rfl, fun st => rfl, ?_, ?_, ?_, ?_, ?_, rfl, ?_⟩
  · intro a h; rw [hpage a _ h]; rfl
  · intro a h; rw [hpage a _ h]; rfl
  · intro a j v h hd
    rw [hpage a _ h]
    simp [hd]
  · intro env
    obtain ⟨qa, st⟩ := env
    cases qa with
    | none => rfl
    | some a =>
      rcases he : a.isEmpty with _ | _
      · rw [hpage a st he]
        cases hd : displayResultsCore st with
        | error e => simp [fetchesOf]
        | ok v => simp [fetchesOf]
      · simp only [resultsPage]
        rw [if_pos he]
        rfl
  · intro env
    obtain ⟨qa, st⟩ := env
    cases qa with
    | none => rfl
    | some a =>
      rcases he : a.isEmpty with _ | _
      · rw [hpage a st he]
        cases hd : displayResultsCore st with
        | error e => rfl
        | ok v => rfl
      · simp only [resultsPage]
        rw [if_pos he]
        rfl
  · intro j v h
    simp [initUrlPayload, h]

theorem results_acquisition_spec_witness :
    resultsPage ⟨some "x", .absent⟩ =
      [.renderErrorBody "Failed to load token analysis results"] :=
  results_acquisition_spec.2.2.1 "x" (by decide)
